import Mathlib

/-!
Shallow embedding of the chai-tea runtime core (src/src/lib.rs): the
Elm-style frame loop for egui/eframe apps.  The host toolkit (egui/eframe)
is opaque: a frame context is identified only by an id, the view function
is modelled by the pure batch of messages it appends during a frame, and
`request_repaint` calls are recorded as a list of repaint events.  The
std::sync::mpsc channel is modelled by its FIFO queue together with a flag
saying whether the receiving end is still alive.
-/

namespace ChaiTea

/-- Opaque stand-in for `egui::Context`; only its identity matters (which
host context a repaint request is addressed to). -/
structure Context where
  id : Nat
deriving DecidableEq, Repr

/-- State of one `std::sync::mpsc` channel: the FIFO queue of pending
messages and whether the `Receiver` is still alive.  `send` on a dead
receiver fails; `try_recv` pops from the front of the queue. -/
structure Channel (Msg : Type) where
  queue : List Msg
  receiverAlive : Bool
deriving DecidableEq, Repr

/-- `std::sync::mpsc::SendError<T>`: the error returned by `send` when the
receiver is gone; it carries the unsent message back to the caller. -/
structure SendError (Msg : Type) where
  msg : Msg
deriving DecidableEq, Repr

/-- A fresh channel, as produced by `std::sync::mpsc::channel()` in
`run_async` (src/src/lib.rs:252): empty queue, receiver alive. -/
def Channel.new {Msg : Type} : Channel Msg :=
  ⟨[], true⟩

/-- `std::sync::mpsc::Sender::send` (the `self.tx.send(msg)` call inside
`ChaiSender`): enqueues at the back and returns `ok` while the receiver is
alive; once the receiver is gone it leaves the queue alone and returns the
`SendError` carrying the message.  It never panics: it is a total
function into `Except`. -/
def Channel.send {Msg : Type} (ch : Channel Msg) (m : Msg) :
    Channel Msg × Except (SendError Msg) Unit :=
  if ch.receiverAlive then
    ({ ch with queue := ch.queue ++ [m] }, Except.ok ())
  else
    (ch, Except.error ⟨m⟩)

/-- Send a whole list of messages in order (repeated `Sender::send`). -/
def Channel.sendAll {Msg : Type} : Channel Msg → List Msg → Channel Msg
  | ch, [] => ch
  | ch, m :: rest => Channel.sendAll (ch.send m).1 rest

/-- The `while let Ok(msg) = self.msg_rx.try_recv() { msgs.push(msg) }`
loop of `ChaiTeaAppAsync::update` (src/src/lib.rs:299-301): it pops the
queue front-first until empty, so it returns the whole pending queue in
FIFO order and leaves the channel empty. -/
def Channel.drain {Msg : Type} (ch : Channel Msg) : List Msg × Channel Msg :=
  (ch.queue, { ch with queue := [] })

/-- `ChaiSender<T>` (src/src/lib.rs:141-144): the send half of the mailbox
channel plus the optional wake-up capability (a cloned egui context).
The channel itself is shared state, so it is threaded alongside
explicitly; the sender value only carries the optional context. -/
structure ChaiSender (Msg : Type) where
  ctx : Option Context
deriving DecidableEq, Repr

/-- `ChaiSender::new` (src/src/lib.rs:147-149): no context installed yet. -/
def ChaiSender.new {Msg : Type} : ChaiSender Msg :=
  ⟨none⟩

/-- `ChaiSender::set_ctx` (src/src/lib.rs:151-153): installs (or replaces)
the wake-up capability by cloning the given context into the sender. -/
def ChaiSender.set_ctx {Msg : Type} (_s : ChaiSender Msg) (c : Context) :
    ChaiSender Msg :=
  ⟨some c⟩

/-- Everything observable from one `ChaiSender` send call: the channel
after the call, the `Result` the caller sees, and the repaint requests
issued to host contexts during the call, in order. -/
structure SendOutcome (Msg : Type) where
  channel : Channel Msg
  result : Except (SendError Msg) Unit
  repaints : List Context
deriving Repr

/-- `ChaiSender::send` (src/src/lib.rs:155-160): if a context is
installed it first issues `ctx.request_repaint()`, then forwards the
message to the underlying channel sender. -/
def ChaiSender.send {Msg : Type} (s : ChaiSender Msg) (ch : Channel Msg)
    (m : Msg) : SendOutcome Msg :=
  let repaints : List Context :=
    match s.ctx with
    | some c => [c]
    | none => []
  let r := ch.send m
  ⟨r.1, r.2, repaints⟩

/-- `ChaiSender::send_repaintless` (src/src/lib.rs:162-164): forwards the
message to the underlying channel sender and never touches the context. -/
def ChaiSender.send_repaintless {Msg : Type} (_s : ChaiSender Msg)
    (ch : Channel Msg) (m : Msg) : SendOutcome Msg :=
  let r := ch.send m
  ⟨r.1, r.2, []⟩

/-! ## Reducer invoker -/

/-- The message loop of the synchronous `ChaiTeaApp::update`
(src/src/lib.rs:122-125): `for msg in msgs { self.model = update(take(self.model), msg) }`. -/
def applyMsgs {M Msg : Type} (upd : M → Msg → M) : M → List Msg → M
  | m, [] => m
  | m, msg :: rest => applyMsgs upd (upd m msg) rest

/-- The message loop of `ChaiTeaAppAsync::update` (src/src/lib.rs:304-311)
with its running model and command accumulator: for each message, call the
reducer on the current model, install the new model, and push the
returned command (if any) onto the accumulator. -/
def processMsgsAux {M Msg Cmd : Type} (upd : M → Msg → M × Option Cmd) :
    M → List Cmd → List Msg → M × List Cmd
  | m, cmds, [] => (m, cmds)
  | m, cmds, msg :: rest =>
    match upd m msg with
    | (newModel, some c) => processMsgsAux upd newModel (cmds ++ [c]) rest
    | (newModel, none) => processMsgsAux upd newModel cmds rest

/-- The async message loop started from an empty command accumulator, as
in `ChaiTeaAppAsync::update` (src/src/lib.rs:296,304-311). -/
def processMsgs {M Msg Cmd : Type} (upd : M → Msg → M × Option Cmd)
    (m : M) (msgs : List Msg) : M × List Cmd :=
  processMsgsAux upd m [] msgs

/-- Transcribed from the spec contract (§4.2): the new model is the left
fold of the reducer's model component over the batch. -/
def foldModel {M Msg Cmd : Type} (upd : M → Msg → M × Option Cmd)
    (m : M) (msgs : List Msg) : M :=
  msgs.foldl (fun a x => (upd a x).1) m

/-- Transcribed from the spec contract (§4.2): every returned command
(`Option.toList` of the reducer's second component), accumulated in
emission order while the model is threaded through. -/
def emittedCmds {M Msg Cmd : Type} (upd : M → Msg → M × Option Cmd) :
    M → List Msg → List Cmd
  | _, [] => []
  | m, msg :: rest => (upd m msg).2.toList ++ emittedCmds upd (upd m msg).1 rest

/-! ## The synchronous app -/

/-- The mutable state of `ChaiTeaApp` (src/src/lib.rs:37-43).  The Rust
struct also stores the `update` and `view` closures; they are immutable
`Copy` values fixed at startup, so here they are parameters of the frame
function instead of fields. -/
structure ChaiTeaApp (M Msg : Type) where
  model : M
  messages : List Msg

/-- `eframe::App::update` for `ChaiTeaApp` (src/src/lib.rs:119-126): run
the view (which appends batch-A messages to `self.messages`), drain the
accumulated messages, and fold the reducer over them. -/
def ChaiTeaApp.update {M Msg : Type} (upd : M → Msg → M)
    (view : Context → M → List Msg) (ctx : Context)
    (app : ChaiTeaApp M Msg) : ChaiTeaApp M Msg :=
  let messages := app.messages ++ view ctx app.model
  let msgs := messages
  ⟨applyMsgs upd app.model msgs, []⟩

/-! ## The asynchronous app -/

/-- The process-wide `static ONCE: std::sync::Once` declared inside
`ChaiTeaAppAsync::update` (src/src/lib.rs:287).  Per the Rust reference, a
static item defined in a generic function is defined exactly once for the
whole program, not once per monomorphization and not once per value, so
this latch is shared by every async app instance in the process.  It is
threaded through the frame function explicitly. -/
structure OnceLatch where
  used : Bool
deriving DecidableEq, Repr

/-- The mutable state of `ChaiTeaAppAsync` (src/src/lib.rs:129-139).  As
for `ChaiTeaApp`, the `update`/`view`/`run_cmd` closures are `Copy`
values fixed at startup and are parameters of the frame function; the
`_phantom_cmd` marker carries no data and is dropped. -/
structure ChaiTeaAppAsync (M S Msg : Type) where
  model : M
  sync_state : S
  messages : List Msg
  chai_tx : ChaiSender Msg
  msg_rx : Channel Msg

/-- The command-dispatch loop of `ChaiTeaAppAsync::update`
(src/src/lib.rs:313-317): for each command in order, clone the sender
(cloning is the identity on the modelled data) and call the effect-runner
with mutable access to the synchronized state.  The runner's synchronous
portion is modelled as the new synchronized state plus the messages it
sends through the given sender before returning; those sends land at the
back of the mailbox queue. -/
def dispatchCmds {S Msg Cmd : Type}
    (runCmd : Cmd → S → ChaiSender Msg → S × List Msg)
    (tx : ChaiSender Msg) : S → Channel Msg → List Cmd → S × Channel Msg
  | s, ch, [] => (s, ch)
  | s, ch, c :: rest =>
    let r := runCmd c s tx
    dispatchCmds runCmd tx r.1 (ch.sendAll r.2) rest

/-- `eframe::App::update` for `ChaiTeaAppAsync` (src/src/lib.rs:286-318):
1. `ONCE.call_once(|| self.chai_tx.set_ctx(ctx))` — install the wake-up
   capability if the process-wide latch is still unused;
2. run the view, draining its messages (batch A);
3. drain the mailbox channel (batch B) and append it after batch A;
4. run the reducer loop over the combined batch;
5. run the command-dispatch loop.
The latch is an explicit argument and result because it is process-global
state, not a field of the instance. -/
def ChaiTeaAppAsync.update {M S Msg Cmd : Type}
    (upd : M → Msg → M × Option Cmd) (view : Context → M → List Msg)
    (runCmd : Cmd → S → ChaiSender Msg → S × List Msg)
    (ctx : Context) (once : OnceLatch) (app : ChaiTeaAppAsync M S Msg) :
    ChaiTeaAppAsync M S Msg × OnceLatch :=
  let inst :=
    if once.used then (app.chai_tx, once)
    else (app.chai_tx.set_ctx ctx, OnceLatch.mk true)
  let chai_tx := inst.1
  let messages := app.messages ++ view ctx app.model
  let drained := app.msg_rx.drain
  let msgs := messages ++ drained.1
  let red := processMsgs upd app.model msgs
  let disp := dispatchCmds runCmd chai_tx app.sync_state drained.2 red.2
  (⟨red.1, disp.1, [], chai_tx, disp.2⟩, inst.2)

/-! ## Entry points -/

/-- What `run` (src/src/lib.rs:48-74) hands to `eframe::run_native`: the
window title and the app-builder closure's result — a `ChaiTeaApp` with
`model = init()` and no pending messages — together with the reducer and
view that drive every frame. -/
structure RunConfig (M Msg : Type) where
  title : String
  app : ChaiTeaApp M Msg
  update : M → Msg → M
  view : Context → M → List Msg

/-- `run` (src/src/lib.rs:48-74), modelled as the configuration it passes
to the opaque host `eframe::run_native`. -/
def run {M Msg : Type} (title : String) (init : Unit → M)
    (update : M → Msg → M) (view : Context → M → List Msg) :
    RunConfig M Msg :=
  ⟨title, ⟨init (), []⟩, update, view⟩

/-- `brew` (src/src/lib.rs:96-110): its body is exactly
`run(title, init, update, view)`. -/
def brew {M Msg : Type} (title : String) (init : Unit → M)
    (update : M → Msg → M) (view : Context → M → List Msg) :
    RunConfig M Msg :=
  run title init update view

/-- What `run_async` (src/src/lib.rs:232-273) hands to
`eframe::run_native`: the title and the built `ChaiTeaAppAsync` — model
and synchronized state from their factories, no pending messages, a fresh
`ChaiSender` over a fresh `mpsc` channel — plus the per-frame closures. -/
structure RunAsyncConfig (M S Msg Cmd : Type) where
  title : String
  app : ChaiTeaAppAsync M S Msg
  update : M → Msg → M × Option Cmd
  view : Context → M → List Msg
  runCmd : Cmd → S → ChaiSender Msg → S × List Msg

/-- `run_async` (src/src/lib.rs:232-273): creates the mpsc channel, wraps
its send half in `ChaiSender::new`, and builds the initial app state. -/
def run_async {M S Msg Cmd : Type} (title : String) (init : Unit → M)
    (sync_state_init : Unit → S) (update : M → Msg → M × Option Cmd)
    (view : Context → M → List Msg)
    (runCmd : Cmd → S → ChaiSender Msg → S × List Msg) :
    RunAsyncConfig M S Msg Cmd :=
  ⟨title, ⟨init (), sync_state_init (), [], ChaiSender.new, Channel.new⟩,
    update, view, runCmd⟩

/-- `brew_async` (src/src/lib.rs:207-227): its body is exactly
`run_async(title, init, sync_state_init, update, view, run_cmd)`. -/
def brew_async {M S Msg Cmd : Type} (title : String) (init : Unit → M)
    (sync_state_init : Unit → S) (update : M → Msg → M × Option Cmd)
    (view : Context → M → List Msg)
    (runCmd : Cmd → S → ChaiSender Msg → S × List Msg) :
    RunAsyncConfig M S Msg Cmd :=
  run_async title init sync_state_init update view runCmd

/-! ## Helper lemmas -/

/-- The async message loop with accumulator `acc` computes the fold of the
reducer for the model and appends the emission-order commands to `acc`. -/
theorem processMsgsAux_eq {M Msg Cmd : Type} (upd : M → Msg → M × Option Cmd)
    (msgs : List Msg) : ∀ (m : M) (acc : List Cmd),
    processMsgsAux upd m acc msgs
      = (foldModel upd m msgs, acc ++ emittedCmds upd m msgs) := by
  induction msgs with
  | nil =>
    intro m acc
    simp [processMsgsAux, foldModel, emittedCmds]
  | cons x rest ih =>
    intro m acc
    rcases h : upd m x with ⟨m2, c⟩
    cases c with
    | none =>
      simp [processMsgsAux, foldModel, emittedCmds, h, ih m2 acc, List.foldl_cons]
    | some cv =>
      have := ih m2 (acc ++ [cv])
      simp [processMsgsAux, foldModel, emittedCmds, h, List.foldl_cons, this]

/-- The model component of the async message loop is the plain left fold. -/
theorem processMsgs_fst {M Msg Cmd : Type} (upd : M → Msg → M × Option Cmd)
    (m : M) (msgs : List Msg) :
    (processMsgs upd m msgs).1 = foldModel upd m msgs := by
  simp [processMsgs, processMsgsAux_eq]

/-- The synchronous message loop is the plain left fold of the reducer. -/
theorem applyMsgs_eq_foldl {M Msg : Type} (upd : M → Msg → M)
    (msgs : List Msg) : ∀ m : M, applyMsgs upd m msgs = List.foldl upd m msgs := by
  induction msgs with
  | nil => intro m; simp [applyMsgs]
  | cons x rest ih => intro m; simp [applyMsgs, ih]

/-- Emission-order commands of a reducer that never returns a command:
there are none. -/
theorem emittedCmds_none {M Msg Cmd : Type} (updS : M → Msg → M)
    (msgs : List Msg) : ∀ m : M,
    emittedCmds (fun a b => (updS a b, (none : Option Cmd))) m msgs = [] := by
  induction msgs with
  | nil => intro m; simp [emittedCmds]
  | cons x rest ih => intro m; simp [emittedCmds, ih]

/-- Sending a list of messages while the receiver is alive appends them
to the queue in order and keeps the receiver alive. -/
theorem sendAll_alive {Msg : Type} (msgs : List Msg) :
    ∀ ch : Channel Msg, ch.receiverAlive = true →
      ch.sendAll msgs = ⟨ch.queue ++ msgs, true⟩ := by
  induction msgs with
  | nil =>
    intro ch h
    cases ch
    simp_all [Channel.sendAll]
  | cons x rest ih =>
    intro ch h
    have hstep : (ch.send x).1 = ⟨ch.queue ++ [x], ch.receiverAlive⟩ := by
      simp [Channel.send, h]
    simp [Channel.sendAll, hstep, h, ih]

/-! ## Claim theorems -/

/-- Claim C2: in every frame, the resulting model is the left fold of the
reducer over the batch, and the command batch is exactly the Some-commands
the reducer returned, in reduction order; the synchronous variant is the
same fold, and a commandless reducer contributes no commands. -/
theorem update_is_reducer_fold {M Msg Cmd : Type}
    (upd : M → Msg → M × Option Cmd) (updS : M → Msg → M)
    (m mS : M) (msgs msgsS : List Msg) :
    processMsgs upd m msgs = (foldModel upd m msgs, emittedCmds upd m msgs)
      ∧ applyMsgs updS mS msgsS = List.foldl updS mS msgsS
      ∧ (processMsgs (fun a b => (updS a b, (none : Option Cmd))) mS msgsS).2 = [] := by
  refine ⟨?_, applyMsgs_eq_foldl updS msgsS mS, ?_⟩
  · simp [processMsgs, processMsgsAux_eq]
  · simp [processMsgs, processMsgsAux_eq, emittedCmds_none]

/-- Claim C5: reducing a sequence of messages one batch per frame, over
any splitting into consecutive frames, yields the same final model as
reducing the whole sequence as a single frame batch. -/
theorem per_frame_equals_one_batch {M Msg Cmd : Type}
    (upd : M → Msg → M × Option Cmd) (m : M) (batches : List (List Msg)) :
    List.foldl (fun a b => (processMsgs upd a b).1) m batches
      = (processMsgs upd m batches.flatten).1 := by
  induction batches generalizing m with
  | nil => simp [processMsgs, processMsgsAux]
  | cons b rest ih =>
    rw [List.foldl_cons, ih, List.flatten_cons]
    simp [processMsgs_fst, foldModel, List.foldl_append]

/-- Claim C1: in an async frame (with the message buffer empty at frame
start, as it is on every frame), the reducer receives the view-produced
batch A concatenated before the mailbox batch B: the new model is the
reduction of `A ++ B`. -/
theorem view_batch_before_mailbox_batch {M S Msg Cmd : Type}
    (upd : M → Msg → M × Option Cmd) (view : Context → M → List Msg)
    (runCmd : Cmd → S → ChaiSender Msg → S × List Msg) (ctx : Context)
    (once : OnceLatch) (app : ChaiTeaAppAsync M S Msg)
    (h : app.messages = []) :
    (ChaiTeaAppAsync.update upd view runCmd ctx once app).1.model
      = (processMsgs upd app.model (view ctx app.model ++ app.msg_rx.queue)).1 := by
  simp [ChaiTeaAppAsync.update, Channel.drain, h]

/-- Witness for C1 at a concrete input: model 0, view batch `[1, 2]`,
mailbox batch `[10]`. -/
theorem view_batch_before_mailbox_batch_witness :
    (⟨0, (), [], ChaiSender.new, ⟨[10], true⟩⟩ : ChaiTeaAppAsync Nat Unit Nat).messages = []
      ∧ (ChaiTeaAppAsync.update (fun (a x : Nat) => (a + x, (none : Option Unit)))
            (fun _ _ => [1, 2]) (fun _ s _ => (s, [])) ⟨0⟩ ⟨false⟩
            ⟨0, (), [], ChaiSender.new, ⟨[10], true⟩⟩).1.model
        = (processMsgs (fun (a x : Nat) => (a + x, (none : Option Unit)))
            0 ([1, 2] ++ [10])).1 :=
  ⟨rfl, view_batch_before_mailbox_batch _ _ _ _ _ _ rfl⟩

/-- Claim C6: messages sent through the mailbox while the receiver is
alive all appear in the next drain, after the already-pending queue, in
the order sent (hence each exactly once), and a second drain returns
nothing. -/
theorem mailbox_send_drain_fifo {Msg : Type} (ch : Channel Msg)
    (msgs : List Msg) (h : ch.receiverAlive = true) :
    (ch.sendAll msgs).drain.1 = ch.queue ++ msgs
      ∧ ((ch.sendAll msgs).drain.2).drain.1 = [] := by
  simp [sendAll_alive msgs ch h, Channel.drain]

/-- Witness for C6 at a concrete input: pending queue `[7]`, sends
`[1, 2]`. -/
theorem mailbox_send_drain_fifo_witness :
    (⟨[7], true⟩ : Channel Nat).receiverAlive = true
      ∧ ((⟨[7], true⟩ : Channel Nat).sendAll [1, 2]).drain.1 = [7] ++ [1, 2]
      ∧ (((⟨[7], true⟩ : Channel Nat).sendAll [1, 2]).drain.2).drain.1 = [] := by
  have h := mailbox_send_drain_fifo (⟨[7], true⟩ : Channel Nat) [1, 2] rfl
  exact ⟨rfl, h.1, h.2⟩

/-- Claim C7: `ChaiSender::send` after the receiver is torn down returns
the error carrying the message and leaves the channel unchanged (it is a
total function, so it cannot panic); while the receiver is alive it
succeeds and enqueues the message. -/
theorem send_after_close_returns_error {Msg : Type} (s : ChaiSender Msg)
    (ch : Channel Msg) (m : Msg) :
    (ch.receiverAlive = false →
        (s.send ch m).result = Except.error ⟨m⟩ ∧ (s.send ch m).channel = ch)
      ∧ (ch.receiverAlive = true →
        (s.send ch m).result = Except.ok ()
          ∧ (s.send ch m).channel.queue = ch.queue ++ [m]) := by
  constructor <;> intro h <;> simp [ChaiSender.send, Channel.send, h]

/-- Witness for C7 at a concrete input: a closed channel and message 5. -/
theorem send_after_close_returns_error_witness :
    (⟨[], false⟩ : Channel Nat).receiverAlive = false
      ∧ ((ChaiSender.new : ChaiSender Nat).send ⟨[], false⟩ 5).result = Except.error ⟨5⟩
      ∧ ((ChaiSender.new : ChaiSender Nat).send ⟨[], false⟩ 5).channel = ⟨[], false⟩ := by
  have h := (send_after_close_returns_error (ChaiSender.new : ChaiSender Nat)
    ⟨[], false⟩ 5).1 rfl
  exact ⟨rfl, h.1, h.2⟩

/-- Claim C8: with no context installed, `send` issues no repaint and
(receiver alive) succeeds and enqueues; once `set_ctx` has installed a
context, every `send` issues a repaint request to that context. -/
theorem send_wakeup_gating {Msg : Type} (s : ChaiSender Msg)
    (ch : Channel Msg) (m : Msg) (c : Context) :
    (s.ctx = none → (s.send ch m).repaints = [])
      ∧ ((s.set_ctx c).send ch m).repaints = [c]
      ∧ (s.ctx = none → ch.receiverAlive = true →
          (s.send ch m).result = Except.ok ()
            ∧ (s.send ch m).channel.queue = ch.queue ++ [m]) := by
  refine ⟨?_, ?_, ?_⟩
  · intro h
    simp [ChaiSender.send, h]
  · simp [ChaiSender.send, ChaiSender.set_ctx]
  · intro h ha
    simp [ChaiSender.send, Channel.send, h, ha]

/-- Witness for C8 at a concrete input: a fresh sender over a live
channel, message 3, context 2. -/
theorem send_wakeup_gating_witness :
    ((ChaiSender.new : ChaiSender Nat).send ⟨[], true⟩ 3).repaints = []
      ∧ (((ChaiSender.new : ChaiSender Nat).set_ctx ⟨2⟩).send ⟨[], true⟩ 3).repaints = [⟨2⟩]
      ∧ ((ChaiSender.new : ChaiSender Nat).send ⟨[], true⟩ 3).result = Except.ok ()
      ∧ ((ChaiSender.new : ChaiSender Nat).send ⟨[], true⟩ 3).channel.queue = [] ++ [3] := by
  have h := send_wakeup_gating (ChaiSender.new : ChaiSender Nat) ⟨[], true⟩ 3 ⟨2⟩
  exact ⟨h.1 rfl, h.2.1, (h.2.2 rfl rfl).1, (h.2.2 rfl rfl).2⟩

/-- Claim C10: `send_repaintless` reaches the same channel state and
returns the same result as `send`, and never issues a repaint, whatever
context is installed. -/
theorem send_repaintless_matches_send {Msg : Type} (s : ChaiSender Msg)
    (ch : Channel Msg) (m : Msg) :
    (s.send_repaintless ch m).channel = (s.send ch m).channel
      ∧ (s.send_repaintless ch m).result = (s.send ch m).result
      ∧ (s.send_repaintless ch m).repaints = [] := by
  simp [ChaiSender.send, ChaiSender.send_repaintless]

/-- Claim C9: `brew` forwards to `run` and `brew_async` forwards to
`run_async`; the configurations they hand to the host are identical. -/
theorem brew_is_run {M S Msg Cmd : Type} (title : String) (init : Unit → M)
    (sync_state_init : Unit → S) (updS : M → Msg → M)
    (upd : M → Msg → M × Option Cmd) (view : Context → M → List Msg)
    (runCmd : Cmd → S → ChaiSender Msg → S × List Msg) :
    brew title init updS view = run title init updS view
      ∧ brew_async title init sync_state_init upd view runCmd
        = run_async title init sync_state_init upd view runCmd :=
  ⟨rfl, rfl⟩

/-- A trivial async app instance over unit types, used only to evaluate
the run-once latch behavior on concrete instances. -/
def unitApp : ChaiTeaAppAsync Unit Unit Unit :=
  ⟨(), (), [], ChaiSender.new, Channel.new⟩

/-- A trivial commandless reducer over unit types. -/
def unitUpd : Unit → Unit → Unit × Option Unit :=
  fun _ _ => ((), none)

/-- A trivial view over unit types: no messages. -/
def unitView : Context → Unit → List Unit :=
  fun _ _ => []

/-- A trivial effect-runner over unit types: no state change, no sends. -/
def unitRun : Unit → Unit → ChaiSender Unit → Unit × List Unit :=
  fun _ s _ => (s, [])

/-- Claim C3, evaluated at the failing input: the latch is the
process-wide `static ONCE`, shared by every async app instance.  The
first instance's first frame installs the wake-up capability into its
sender, and a second, separately constructed instance running its first
frame afterwards (with the latch already used) never gets one: its
sender's context stays `none`, contradicting "each get their own
installation". -/
theorem once_latch_shared_across_instances :
    (ChaiTeaAppAsync.update unitUpd unitView unitRun ⟨0⟩ ⟨false⟩ unitApp).1.chai_tx.ctx
        = some ⟨0⟩
      ∧ (ChaiTeaAppAsync.update unitUpd unitView unitRun ⟨1⟩
            (ChaiTeaAppAsync.update unitUpd unitView unitRun ⟨0⟩ ⟨false⟩ unitApp).2
            unitApp).1.chai_tx.ctx = none :=
  ⟨rfl, rfl⟩

end ChaiTea
